import Mathlib

/-!
Shallow embedding of the real-time audio pipeline of the VS-FM-RADIO
repository (src/components/LiveVoiceAgent.tsx and src/services/audioService.ts),
together with theorems settling the specification claims about it.

Conventions of the embedding:
* JavaScript numbers (Float32 samples, clock times, durations, volumes) are
  modelled as rationals `ℚ`; the special values NaN / ±Infinity relevant to
  `AudioService.seek` are modelled by the inductive `JSNum`.
* JavaScript strings are modelled as Lean `String`; the `url.startsWith("blob:")`
  test is modelled via `List.isPrefixOf` on the character lists.
* The browser / platform behaviour that the code depends on (AudioContext
  availability, whether `createMediaElementSource` throws, whether assigning
  `currentTime` before metadata throws) is captured by an explicit `BrowserEnv`.
* Mutable refs (`nextStartTimeRef`, `audioQueueRef`, ...) become fields of
  explicit state records (`AgentState`, `AudioSvcState`); event handlers become
  state-transition functions.
* Side effects on external handles (`source.stop()`, `session.close()`,
  `track.stop()`, `processor.disconnect()`, `ctx.close()`, element `play()` and
  `load()` calls, errors surfaced through `onError`) are recorded in append-only
  log fields so that "released exactly once" style properties are expressible.
-/

namespace VSFM

/-! ### AudioFrameCodec: base64 transport encoding (`encode` / `decode`)

`encode` in LiveVoiceAgent.tsx builds a binary string from the bytes and calls
`btoa`; `decode` calls `atob` and reads the char codes back.  We model the
byte-level content of `btoa` / `atob` directly (standard base64, RFC 4648). -/

/-- The standard base64 alphabet used by `btoa` / `atob`. -/
def b64Alphabet : List Char :=
  "ABCDEFGHIJKLMNOPQRSTUVWXYZabcdefghijklmnopqrstuvwxyz0123456789+/".toList

/-- Character for a sextet value. -/
def b64Char (n : Nat) : Char := b64Alphabet.getD n 'A'

/-- Sextet value of an alphabet character. -/
def b64Index (c : Char) : Nat := b64Alphabet.indexOf c

/-- Model of `btoa` on the underlying byte values (the TS code builds the
binary string with `String.fromCharCode` over a `Uint8Array`, so each char code
is the byte value). -/
def btoa : List Nat → List Char
  | [] => []
  | [a] => [b64Char (a / 4), b64Char (a % 4 * 16), '=', '=']
  | [a, b] => [b64Char (a / 4), b64Char (a % 4 * 16 + b / 16), b64Char (b % 16 * 4), '=']
  | a :: b :: c :: rest =>
      b64Char (a / 4) :: b64Char (a % 4 * 16 + b / 16) ::
        b64Char (b % 16 * 4 + c / 64) :: b64Char (c % 64) :: btoa rest

/-- Model of `atob` (on well-formed base64 text: padding only at the end). -/
def atob : List Char → List Nat
  | c1 :: c2 :: c3 :: c4 :: rest =>
      let s1 := b64Index c1
      let s2 := b64Index c2
      if c3 = '=' then [s1 * 4 + s2 / 16]
      else
        let s3 := b64Index c3
        if c4 = '=' then [s1 * 4 + s2 / 16, s2 % 16 * 16 + s3 / 4]
        else
          (s1 * 4 + s2 / 16) :: (s2 % 16 * 16 + s3 / 4) ::
            (s3 % 4 * 64 + b64Index c4) :: atob rest
  | _ => []

/-! ### AudioFrameCodec: PCM16 quantization (`createBlob` / `decodeAudioData`) -/

/-- Truncation toward zero, the integer conversion step of ECMAScript `ToInt16`
applied by the typed-array store `int16[i] = data[i] * 32768` (finite case). -/
def jsTrunc (q : ℚ) : Int := if q < 0 then ⌈q⌉ else ⌊q⌋

/-- Reduction of an integer into the signed 16-bit range by wrap-around
(the `int modulo 2^16` step of ECMAScript `ToInt16`). -/
def wrap16 (v : Int) : Int :=
  let u := v % 65536
  if u < 32768 then u else u - 65536

/-- The value actually stored by `int16[i] = q` in the TS code. -/
def jsToInt16 (q : ℚ) : Int := wrap16 (jsTrunc q)

/-- Little-endian byte serialization of one stored 16-bit sample, as exposed by
`new Uint8Array(int16.buffer)`. -/
def int16BytesLE (v : Int) : List Nat :=
  let u := (v % 65536).toNat
  [u % 256, u / 256]

/-- Reading one 16-bit sample back from two little-endian bytes, as done by
`new Int16Array(data.buffer)`. -/
def bytesToInt16 (lo hi : Nat) : Int :=
  let u := lo + 256 * hi
  if u < 32768 then (u : Int) else (u : Int) - 65536

/-- Reading a whole byte buffer as an `Int16Array` (little-endian pairs). -/
def bytesToInt16List : List Nat → List Int
  | lo :: hi :: rest => bytesToInt16 lo hi :: bytesToInt16List rest
  | _ => []

/-- An outbound/inbound transport packet `\x7b data, mimeType \x7d`. -/
structure TransportPacket where
  data : List Char
  mimeType : String
deriving DecidableEq

/-- Model of `createBlob` (LiveVoiceAgent.tsx): stores `data[i] * 32768` into an
`Int16Array`, serializes the buffer bytes, base64-encodes them, and tags the
packet with the fixed mime type. -/
def createBlob (data : List ℚ) : TransportPacket :=
  let int16 := data.map fun x => jsToInt16 (x * 32768)
  { data := btoa (int16.flatMap int16BytesLE)
    mimeType := "audio/pcm;rate=16000" }

/-- Model of `decodeAudioData` (LiveVoiceAgent.tsx): views the bytes as an
`Int16Array`, de-interleaves `numChannels` channels, and converts each stored
sample to float via `/ 32768`.  The sample-rate argument only tags the produced
`AudioBuffer` and does not affect sample values, so it is omitted. -/
def decodeAudioData (bytes : List Nat) (numChannels : Nat) : List (List ℚ) :=
  let dataInt16 := bytesToInt16List bytes
  let frameCount := dataInt16.length / numChannels
  (List.range numChannels).map fun channel =>
    (List.range frameCount).map fun i =>
      ((dataInt16.getD (i * numChannels + channel) 0 : Int) : ℚ) / 32768

/-- The inbound decode path for the mono model-speech payloads: base64 decode
followed by `decodeAudioData` with one channel (as called in `onmessage`). -/
def decodeInboundMono (p : TransportPacket) : List ℚ :=
  (decodeAudioData (atob p.data) 1).headD []

/-- Quantizer in the words of the claim (C3): `round(sample * 32767)` clamped to
the signed 16-bit range.  Stated for comparison with the code's `jsToInt16`. -/
def specClaimQuantize (x : ℚ) : Int :=
  max (-32768) (min 32767 (round (x * 32767)))

/-! ### StreamingSessionManager / PlaybackScheduler (LiveVoiceAgent.tsx) -/

/-- Connection status held in the component's `status` state. -/
inductive AgentStatus
  | idle
  | connecting
  | connected
  | error
deriving DecidableEq

/-- State of the live-voice component: the React refs plus append-only logs of
release / stop / close side effects on external handles. -/
structure AgentState where
  mounted : Bool
  isConnecting : Bool
  status : AgentStatus
  sessionOpen : Option Nat
  streamOpen : Option Nat
  processorOpen : Option Nat
  inputCtx : Option Nat
  outputCtx : Option Nat
  nextStartTime : ℚ
  audioQueue : List Nat
  stoppedSources : List Nat
  closedSessions : List Nat
  stoppedStreams : List Nat
  disconnectedProcessors : List Nat
  closedContexts : List Nat
  sessionsCreated : Nat
  streamsAcquired : Nat
  contextPairsCreated : Nat
deriving DecidableEq

/-- The `audioData` branch of `onmessage`: gapless scheduling of one decoded
buffer.  `clock` is `ctx.currentTime` at arrival, `dur` is `buffer.duration`,
`srcId` identifies the fresh `AudioBufferSourceNode`.  Returns the new state
and the planned start time passed to `source.start`. -/
def handleAudioData (clock dur : ℚ) (srcId : Nat) (s : AgentState) : AgentState × ℚ :=
  let start := max s.nextStartTime clock
  ({ s with nextStartTime := start + dur, audioQueue := s.audioQueue ++ [srcId] }, start)

/-- The `interrupted` branch of `onmessage`: stop every queued source, clear the
active set, reset the scheduling accumulator. -/
def handleInterrupted (s : AgentState) : AgentState :=
  { s with stoppedSources := s.stoppedSources ++ s.audioQueue
           audioQueue := []
           nextStartTime := 0 }

/-- Iterated scheduling of a sequence of decoded frames
`(clock at arrival, duration, source id)`, returning the planned
`(start, end)` interval of every buffer in order. -/
def scheduleFrames (s : AgentState) : List (ℚ × ℚ × Nat) → List (ℚ × ℚ)
  | [] => []
  | f :: rest =>
      let r := handleAudioData f.1 f.2.1 f.2.2 s
      (r.2, r.2 + f.2.1) :: scheduleFrames r.1 rest

/-- The scheduling recurrence in the words of the claim (C1): planned start is
`max (accumulated planned end) (current clock)`, accumulator advances by the
duration. -/
def gaplessSpec (acc : ℚ) : List (ℚ × ℚ) → List (ℚ × ℚ)
  | [] => []
  | f :: rest =>
      let st := max acc f.1
      (st, st + f.2) :: gaplessSpec (st + f.2) rest

/-- Model of `cleanup` (LiveVoiceAgent.tsx): best-effort close of the session,
stop of the capture tracks, disconnect of the processor, close of both audio
contexts, stop-and-clear of the playback queue, status back to idle.  Each
`if (ref) \x7b release; ref = null \x7d` of the source is one match below. -/
def cleanup (s : AgentState) : AgentState :=
  let s1 := { s with mounted := false, isConnecting := false }
  let s2 := match s1.sessionOpen with
    | some sid => { s1 with closedSessions := s1.closedSessions ++ [sid], sessionOpen := none }
    | none => s1
  let s3 := match s2.streamOpen with
    | some st => { s2 with stoppedStreams := s2.stoppedStreams ++ [st], streamOpen := none }
    | none => s2
  let s4 := match s3.processorOpen with
    | some p =>
        { s3 with disconnectedProcessors := s3.disconnectedProcessors ++ [p], processorOpen := none }
    | none => s3
  let s5 := match s4.inputCtx with
    | some c => { s4 with closedContexts := s4.closedContexts ++ [c], inputCtx := none }
    | none => s4
  let s6 := match s5.outputCtx with
    | some c => { s5 with closedContexts := s5.closedContexts ++ [c], outputCtx := none }
    | none => s5
  let s7 := { s6 with stoppedSources := s6.stoppedSources ++ s6.audioQueue, audioQueue := [] }
  { s7 with status := AgentStatus.idle }

/-- The synchronous head of `startSession`: the missing-credential fast path and
the `isConnectingRef` guard, up to and including `isConnectingRef.current = true;
setStatus('connecting')`.  Returns the state and whether the activation
proceeds. -/
def startSessionBegin (hasApiKey : Bool) (s : AgentState) : AgentState × Bool :=
  if !hasApiKey then (s, false)
  else if s.isConnecting then (s, false)
  else ({ s with isConnecting := true, status := AgentStatus.connecting }, true)

/-- The resource-acquiring body of `startSession` (run only when the guard let
the activation proceed): microphone stream, the 16 kHz input / 24 kHz output
context pair, and the remote session. -/
def startSessionAcquire (sid streamId inCtxId outCtxId : Nat) (s : AgentState) : AgentState :=
  { s with streamOpen := some streamId
           streamsAcquired := s.streamsAcquired + 1
           inputCtx := some inCtxId
           outputCtx := some outCtxId
           contextPairsCreated := s.contextPairsCreated + 1
           sessionOpen := some sid
           sessionsCreated := s.sessionsCreated + 1 }

/-- The `finally` block of `startSession`: drop the in-flight guard. -/
def startSessionFinally (s : AgentState) : AgentState :=
  { s with isConnecting := false }

/-! ### Tool-call dispatch (the `toolCall` branch of `onmessage`) -/

/-- One function call of a tool-call message. -/
structure ToolCall where
  id : String
  name : String
deriving DecidableEq

/-- One `sendToolResponse` payload. -/
structure ToolResponse where
  id : String
  name : String
  result : String
deriving DecidableEq

/-- JavaScript `result || "done"` on a string-or-undefined handler result:
`undefined`, `null` and the empty string are falsy and replaced by the
sentinel. -/
def jsOrDone : Option String → String
  | none => "done"
  | some r => if r = "" then "done" else r

/-- Model of the `toolCall` loop of `onmessage`.  The handler is the awaited
`onToolCall` callback; `Except.error` models a rejected handler promise.
Returns `(status messages "Running: name" in dispatch order, responses sent,
logged errors)`. -/
def processToolCalls (handler : ToolCall → Except String (Option String)) :
    List ToolCall → List String × List ToolResponse × List String
  | [] => ([], [], [])
  | fc :: rest =>
      let r := processToolCalls handler rest
      match handler fc with
      | Except.ok res =>
          (("Running: " ++ fc.name) :: r.1,
           { id := fc.id, name := fc.name, result := jsOrDone res } :: r.2.1,
           r.2.2)
      | Except.error e =>
          (("Running: " ++ fc.name) :: r.1, r.2.1, e :: r.2.2)

/-! ### LocalPlaybackEngine (audioService.ts) -/

/-- JavaScript number argument of `seek`: NaN, ±Infinity, or a finite value. -/
inductive JSNum
  | nan
  | posInf
  | negInf
  | num (q : ℚ)
deriving DecidableEq

/-- Model of `Number.isFinite`. -/
def JSNum.isFinite : JSNum → Bool
  | JSNum.num _ => true
  | _ => false

/-- Browser-dependent behaviour the service code reacts to. -/
structure BrowserEnv where
  hasAudioCtor : Bool
  mediaSourceConnectFails : Bool
  seekBeforeMetadataThrows : Bool
deriving DecidableEq

/-- State of `AudioService`: the media element's relevant fields, the service's
own flags, and append-only logs of `play()` calls issued, load events and
errors surfaced through `callbacks.onError`. -/
structure AudioSvcState where
  src : String
  crossOrigin : Option String
  isCorsRestricted : Bool
  paused : Bool
  readyState : Nat
  currentTime : ℚ
  volume : ℚ
  hasAudioContext : Bool
  sourceConnected : Bool
  playCalls : Nat
  loadEvents : Nat
  surfacedErrors : List Nat
deriving DecidableEq

/-- Prefix test `url.startsWith("blob:")`, modelled on the character lists. -/
def jsStartsWith (s p : String) : Bool := p.toList.isPrefixOf s.toList

/-- Model of `safePlay`: issues one `audioElement.play()` call (the rejection
handler of the returned promise is a separate event and does not change the
service state here). -/
def safePlay (s : AudioSvcState) : AudioSvcState :=
  { s with playCalls := s.playCalls + 1, paused := false }

/-- Model of `init`: lazily create the AudioContext and analyser, and connect
the media-element source unless restricted; a throwing
`createMediaElementSource` sets the restriction flag. -/
def init (env : BrowserEnv) (s : AudioSvcState) : AudioSvcState :=
  let s1 := if !s.hasAudioContext && env.hasAudioCtor then
      { s with hasAudioContext := true }
    else s
  if !s1.sourceConnected && !s1.isCorsRestricted && s1.hasAudioContext then
    if env.mediaSourceConnectFails then { s1 with isCorsRestricted := true }
    else { s1 with sourceConnected := true }
  else s1

/-- The CORS-policy selection at the top of `play`: blob URLs drop the
cross-origin request; any other URL requests anonymous access and clears the
restriction flag. -/
def playCorsPolicy (url : String) (s : AudioSvcState) : AudioSvcState :=
  if jsStartsWith url "blob:" then { s with crossOrigin := none }
  else { s with crossOrigin := some "anonymous", isCorsRestricted := false }

/-- The reload step of `play`: assign `src` and call `load()` when the URL
differs from the currently loaded source. -/
def playLoad (url : String) (s : AudioSvcState) : AudioSvcState :=
  if s.src ≠ url then { s with src := url, loadEvents := s.loadEvents + 1 } else s

/-- The optional initial seek of `play` (`if (startTime && startTime > 0)`). -/
def playInitialSeek (startTime : Option ℚ) (s : AudioSvcState) : AudioSvcState :=
  match startTime with
  | some t => if 0 < t then { s with currentTime := t } else s
  | none => s

/-- Model of `play(url, startTime?)`: CORS policy, `init`, conditional reload,
optional initial seek, then `safePlay`. -/
def play (env : BrowserEnv) (url : String) (startTime : Option ℚ) (s : AudioSvcState) :
    AudioSvcState :=
  if url = "" then s
  else safePlay (playInitialSeek startTime (playLoad url (init env (playCorsPolicy url s))))

/-- Model of the `onerror` handler: CORS recovery (disable the cross-origin
request, set the restriction flag, reassign `src` to force a reload, retry via
`safePlay`) when the element still requests anonymous cross-origin access and a
source is loaded; otherwise the error is surfaced through `onError`. -/
def handleError (errCode : Nat) (s : AudioSvcState) : AudioSvcState :=
  if s.src ≠ "" ∧ s.crossOrigin = some "anonymous" then
    let s1 := { s with crossOrigin := none, isCorsRestricted := true }
    let s2 := { s1 with loadEvents := s1.loadEvents + 1 }
    safePlay s2
  else
    { s with surfacedErrors := errCode :: s.surfacedErrors }

/-- Model of `togglePlay`. -/
def togglePlay (env : BrowserEnv) (s : AudioSvcState) : AudioSvcState :=
  if s.paused then safePlay (init env s) else { s with paused := true }

/-- The bare assignment `audioElement.currentTime = t` attempted before
metadata is available; whether it throws is browser behaviour. -/
def setCurrentTimeBeforeMetadata (env : BrowserEnv) (t : ℚ) (s : AudioSvcState) :
    Except Unit AudioSvcState :=
  if env.seekBeforeMetadataThrows then Except.error ()
  else Except.ok { s with currentTime := t }

/-- Model of `seek(time)`.  The result is wrapped in `Except` so that "never
throws" is expressible: the only fallible assignment sits inside the source's
`try ... catch(e) \x7b\x7d`, whose catch branch discards the failure. -/
def seek (env : BrowserEnv) (t : JSNum) (s : AudioSvcState) : Except Unit AudioSvcState :=
  match t with
  | JSNum.num q =>
      if s.readyState > 0 then Except.ok { s with currentTime := q }
      else
        match setCurrentTimeBeforeMetadata env q s with
        | Except.ok s1 => Except.ok s1
        | Except.error _ => Except.ok s
  | _ => Except.ok s

/-- Run `seek` as the total state transition it is (its `Except` never fires). -/
def seekRun (env : BrowserEnv) (t : JSNum) (s : AudioSvcState) : AudioSvcState :=
  match seek env t s with
  | Except.ok s1 => s1
  | Except.error _ => s

/-- Model of `skip(seconds)`. -/
def skip (env : BrowserEnv) (secs : ℚ) (s : AudioSvcState) : AudioSvcState :=
  seekRun env (JSNum.num (s.currentTime + secs)) s

/-- Model of `setVolume`. -/
def setVolume (v : ℚ) (s : AudioSvcState) : AudioSvcState :=
  { s with volume := max 0 (min 1 v) }

/-- Model of `getFrequencyData`: returns the analyser bins, or the empty
sequence when restricted or no analyser exists; never mutates the state. -/
def getFrequencyData (freqBins : List Nat) (s : AudioSvcState) : List Nat :=
  if !s.hasAudioContext || s.isCorsRestricted then [] else freqBins

/-- The public operations of `AudioService`, for lifetime invariants over the
whole interface (claim C8). -/
inductive AudioOp
  | playOp (url : String) (startTime : Option ℚ)
  | togglePlayOp
  | seekOp (t : JSNum)
  | skipOp (secs : ℚ)
  | setVolumeOp (v : ℚ)
  | initOp
  | handleErrorOp (code : Nat)
  | getFrequencyDataOp
deriving DecidableEq

/-- One step of the service under an operation (`getFrequencyData` reads but
does not mutate). -/
def applyOp (env : BrowserEnv) : AudioOp → AudioSvcState → AudioSvcState
  | AudioOp.playOp url t, s => play env url t s
  | AudioOp.togglePlayOp, s => togglePlay env s
  | AudioOp.seekOp t, s => seekRun env t s
  | AudioOp.skipOp secs, s => skip env secs s
  | AudioOp.setVolumeOp v, s => setVolume v s
  | AudioOp.initOp, s => init env s
  | AudioOp.handleErrorOp c, s => handleError c s
  | AudioOp.getFrequencyDataOp, s => s

/-! ### Concrete states for instantiating theorems -/

/-- A freshly mounted live-voice component before any activation. -/
def agentState0 : AgentState :=
  { mounted := true, isConnecting := false, status := AgentStatus.idle
    sessionOpen := none, streamOpen := none, processorOpen := none
    inputCtx := none, outputCtx := none
    nextStartTime := 0, audioQueue := []
    stoppedSources := [], closedSessions := [], stoppedStreams := []
    disconnectedProcessors := [], closedContexts := []
    sessionsCreated := 0, streamsAcquired := 0, contextPairsCreated := 0 }

/-- A freshly constructed `AudioService` (no source loaded yet). -/
def svcState0 : AudioSvcState :=
  { src := "", crossOrigin := some "anonymous", isCorsRestricted := false
    paused := true, readyState := 0, currentTime := 0, volume := 1
    hasAudioContext := false, sourceConnected := false
    playCalls := 0, loadEvents := 0, surfacedErrors := [] }

/-- A benign browser environment. -/
def env0 : BrowserEnv :=
  { hasAudioCtor := true, mediaSourceConnectFails := false
    seekBeforeMetadataThrows := false }

/-! ## Theorems -/

/-! ### PlaybackScheduler: gapless scheduling (C1) and flush (C4) -/

theorem scheduleFrames_head_start (s : AgentState) (frames : List (ℚ × ℚ × Nat)) :
    ∀ p ∈ (scheduleFrames s frames).head?, s.nextStartTime ≤ p.1 := by
  cases frames with
  | nil => simp [scheduleFrames]
  | cons f rest =>
      intro p hp
      simp only [scheduleFrames, handleAudioData, List.head?_cons, Option.mem_def,
        Option.some.injEq] at hp
      subst hp
      exact le_max_left _ _

theorem scheduleFrames_eq_gaplessSpec (frames : List (ℚ × ℚ × Nat)) :
    ∀ s : AgentState,
      scheduleFrames s frames = gaplessSpec s.nextStartTime (frames.map fun f => (f.1, f.2.1)) := by
  induction frames with
  | nil => intro s; simp [scheduleFrames, gaplessSpec]
  | cons f rest ih =>
      intro s
      simp only [scheduleFrames, gaplessSpec, handleAudioData, List.map_cons]
      refine congrArg _ ?_
      simpa using ih _

theorem scheduleFrames_chain (frames : List (ℚ × ℚ × Nat)) :
    ∀ s : AgentState,
      List.Chain' (fun a b : ℚ × ℚ => a.2 ≤ b.1) (scheduleFrames s frames) := by
  induction frames with
  | nil => intro s; simp [scheduleFrames]
  | cons f rest ih =>
      intro s
      simp only [scheduleFrames]
      refine List.chain'_cons'.2 ⟨?_, ih _⟩
      intro b hb
      have := scheduleFrames_head_start (handleAudioData f.1 f.2.1 f.2.2 s).1 rest b hb
      simpa [handleAudioData] using this

/-- Claim C1: within one session, each enqueued buffer's planned start time is
`max (current clock time) (accumulated planned end)`, the accumulator advances
by the buffer's duration, and consecutive planned intervals never overlap:
buffer `k+1`'s planned start is at least buffer `k`'s planned end.  The
accumulator, not arrival order, determines placement. -/
theorem gapless_scheduling (s : AgentState) (frames : List (ℚ × ℚ × Nat)) :
    scheduleFrames s frames = gaplessSpec s.nextStartTime (frames.map fun f => (f.1, f.2.1)) ∧
      List.Chain' (fun a b : ℚ × ℚ => a.2 ≤ b.1) (scheduleFrames s frames) :=
  ⟨scheduleFrames_eq_gaplessSpec frames s, scheduleFrames_chain frames s⟩

/-- Claim C4: the interruption signal stops and removes every buffer in the
active set and resets the scheduling accumulator to `0`; flushing is
idempotent, so a second consecutive flush leaves the accumulator at `0` and the
set empty, changing nothing. -/
theorem flush_semantics (s : AgentState) :
    (handleInterrupted s).audioQueue = [] ∧
      (handleInterrupted s).nextStartTime = 0 ∧
      (handleInterrupted s).stoppedSources = s.stoppedSources ++ s.audioQueue ∧
      handleInterrupted (handleInterrupted s) = handleInterrupted s := by
  refine ⟨rfl, rfl, rfl, ?_⟩
  simp [handleInterrupted]

/-! ### StreamingSessionManager teardown (C5) -/

theorem cleanup_closed_form (s : AgentState) :
    cleanup s =
      { mounted := false, isConnecting := false, status := AgentStatus.idle
        sessionOpen := none, streamOpen := none, processorOpen := none
        inputCtx := none, outputCtx := none
        nextStartTime := s.nextStartTime
        audioQueue := []
        stoppedSources := s.stoppedSources ++ s.audioQueue
        closedSessions := s.closedSessions ++ s.sessionOpen.toList
        stoppedStreams := s.stoppedStreams ++ s.streamOpen.toList
        disconnectedProcessors := s.disconnectedProcessors ++ s.processorOpen.toList
        closedContexts := s.closedContexts ++ s.inputCtx.toList ++ s.outputCtx.toList
        sessionsCreated := s.sessionsCreated
        streamsAcquired := s.streamsAcquired
        contextPairsCreated := s.contextPairsCreated } := by
  obtain ⟨m, ic, st, so, sto, po, ici, oci, nst, aq, ss, cs, sst, dp, cc, sc, sa, cp⟩ := s
  cases so <;> cases sto <;> cases po <;> cases ici <;> cases oci <;> simp [cleanup]

/-- Claim C5 (amended): `cleanup` closes the remote session, stops the capture
stream, disconnects the capture processor, closes both audio contexts, stops
and removes all pending playback buffers, and returns the status to idle, each
exactly once; a second call releases nothing twice (it is idempotent).  The
scheduling accumulator, however, is left unchanged rather than reset to `0`. -/
theorem teardown_complete_idempotent (s : AgentState) :
    (cleanup s).status = AgentStatus.idle ∧
      (cleanup s).sessionOpen = none ∧
      (cleanup s).streamOpen = none ∧
      (cleanup s).processorOpen = none ∧
      (cleanup s).inputCtx = none ∧
      (cleanup s).outputCtx = none ∧
      (cleanup s).audioQueue = [] ∧
      (cleanup s).closedSessions = s.closedSessions ++ s.sessionOpen.toList ∧
      (cleanup s).stoppedStreams = s.stoppedStreams ++ s.streamOpen.toList ∧
      (cleanup s).disconnectedProcessors
          = s.disconnectedProcessors ++ s.processorOpen.toList ∧
      (cleanup s).closedContexts = s.closedContexts ++ s.inputCtx.toList ++ s.outputCtx.toList ∧
      (cleanup s).stoppedSources = s.stoppedSources ++ s.audioQueue ∧
      (cleanup s).nextStartTime = s.nextStartTime ∧
      cleanup (cleanup s) = cleanup s := by
  rw [cleanup_closed_form s, cleanup_closed_form]
  simp

/-- Counterexample to C5 as stated: teardown does not reset the scheduling
clock; from a state whose accumulator is `5` it remains `5`, not `0`. -/
theorem teardown_clock_not_reset :
    (cleanup { agentState0 with nextStartTime := 5 }).nextStartTime = 5 ∧ (5 : ℚ) ≠ 0 := by
  refine ⟨rfl, by norm_num⟩

/-! ### Single activation guard (C9) -/

/-- Claim C9: with a credential configured, a first `startSession` from a
non-connecting state proceeds and takes the in-flight guard; a second
activation issued while the first is still connecting is ignored (it changes
nothing and does not proceed), so running the first activation's body and
`finally` yields exactly one new live session, one capture stream and one pair
of audio contexts. -/
theorem single_activation (s : AgentState) (h : s.isConnecting = false)
    (sid streamId inCtxId outCtxId : Nat) :
    (startSessionBegin true s).2 = true ∧
      (startSessionBegin true (startSessionBegin true s).1).2 = false ∧
      (startSessionBegin true (startSessionBegin true s).1).1 = (startSessionBegin true s).1 ∧
      (startSessionFinally (startSessionAcquire sid streamId inCtxId outCtxId
          (startSessionBegin true s).1)).sessionsCreated = s.sessionsCreated + 1 ∧
      (startSessionFinally (startSessionAcquire sid streamId inCtxId outCtxId
          (startSessionBegin true s).1)).streamsAcquired = s.streamsAcquired + 1 ∧
      (startSessionFinally (startSessionAcquire sid streamId inCtxId outCtxId
          (startSessionBegin true s).1)).contextPairsCreated = s.contextPairsCreated + 1 ∧
      (startSessionFinally (startSessionAcquire sid streamId inCtxId outCtxId
          (startSessionBegin true s).1)).isConnecting = false := by
  simp [startSessionBegin, startSessionAcquire, startSessionFinally, h]

theorem single_activation_witness :
    (startSessionBegin true agentState0).2 = true ∧
      (startSessionBegin true (startSessionBegin true agentState0).1).2 = false ∧
      (startSessionBegin true (startSessionBegin true agentState0).1).1
          = (startSessionBegin true agentState0).1 ∧
      (startSessionFinally (startSessionAcquire 1 2 3 4
          (startSessionBegin true agentState0).1)).sessionsCreated
          = agentState0.sessionsCreated + 1 ∧
      (startSessionFinally (startSessionAcquire 1 2 3 4
          (startSessionBegin true agentState0).1)).streamsAcquired
          = agentState0.streamsAcquired + 1 ∧
      (startSessionFinally (startSessionAcquire 1 2 3 4
          (startSessionBegin true agentState0).1)).contextPairsCreated
          = agentState0.contextPairsCreated + 1 ∧
      (startSessionFinally (startSessionAcquire 1 2 3 4
          (startSessionBegin true agentState0).1)).isConnecting = false :=
  single_activation agentState0 rfl 1 2 3 4

/-! ### Tool-call dispatch (C7) -/

/-- Claim C7: the tool-call loop dispatches every call of a message in arrival
order (the `Running:` notification fires for each call, failures included), a
handler failure neither aborts the loop nor the session, each successful call's
response is sent tagged with the call's id with the `"done"` sentinel
substituted for an empty result, and each failed call contributes exactly its
logged error and no response. -/
theorem toolcall_dispatch (handler : ToolCall → Except String (Option String))
    (calls : List ToolCall) :
    (processToolCalls handler calls).1 = calls.map (fun c => "Running: " ++ c.name) ∧
      (processToolCalls handler calls).2.1 =
        calls.filterMap (fun c =>
          match handler c with
          | Except.ok r => some { id := c.id, name := c.name, result := jsOrDone r }
          | Except.error _ => none) ∧
      (processToolCalls handler calls).2.2 =
        calls.filterMap (fun c =>
          match handler c with
          | Except.ok _ => none
          | Except.error e => some e) := by
  induction calls with
  | nil => simp [processToolCalls]
  | cons c rest ih =>
      obtain ⟨ih1, ih2, ih3⟩ := ih
      cases hc : handler c <;>
        simp [processToolCalls, hc, ih1, ih2, ih3]

/-! ### AudioService.seek safety (C10) -/

/-- Claim C10: `seek` never throws for any numeric argument (its only fallible
assignment is inside `try ... catch`), and for every non-finite argument (NaN,
±Infinity) it returns immediately leaving the playback position, and the whole
state, unchanged. -/
theorem seek_nonfinite_safe (env : BrowserEnv) (t : JSNum) (s : AudioSvcState) :
    ∃ s1, seek env t s = Except.ok s1 ∧
      (t.isFinite = false → s1 = s) := by
  cases t with
  | num q =>
      by_cases hr : s.readyState > 0
      · exact ⟨{ s with currentTime := q }, by simp [seek, hr], by simp [JSNum.isFinite]⟩
      · cases he : env.seekBeforeMetadataThrows
        · exact ⟨{ s with currentTime := q },
            by simp [seek, hr, setCurrentTimeBeforeMetadata, he],
            by simp [JSNum.isFinite]⟩
        · exact ⟨s, by simp [seek, hr, setCurrentTimeBeforeMetadata, he],
            by simp [JSNum.isFinite]⟩
  | nan => exact ⟨s, rfl, fun _ => rfl⟩
  | posInf => exact ⟨s, rfl, fun _ => rfl⟩
  | negInf => exact ⟨s, rfl, fun _ => rfl⟩

theorem seek_nonfinite_safe_witness :
    seek env0 JSNum.nan svcState0 = Except.ok svcState0 := by
  obtain ⟨s1, h1, h2⟩ := seek_nonfinite_safe env0 JSNum.nan svcState0
  rw [h1, h2 rfl]

/-! ### AudioService CORS fault recovery (C6) -/

/-- Claim C6: when a playback error fires while a source is loaded and the
element still requests anonymous cross-origin access, the handler disables the
cross-origin request, sets the restriction flag, reassigns the source (same
source, forcing one reload) and issues exactly one automatic retry without
surfacing the error; if an error fires again after this recovery, or fires when
the source is not cross-origin, it is surfaced through `onError` and no further
retry is issued by the service. -/
theorem cors_fault_recovery (s : AudioSvcState) (h1 : s.src ≠ "")
    (h2 : s.crossOrigin = some "anonymous") (code1 code2 : Nat) :
    (handleError code1 s).crossOrigin = none ∧
      (handleError code1 s).isCorsRestricted = true ∧
      (handleError code1 s).src = s.src ∧
      (handleError code1 s).loadEvents = s.loadEvents + 1 ∧
      (handleError code1 s).playCalls = s.playCalls + 1 ∧
      (handleError code1 s).surfacedErrors = s.surfacedErrors ∧
      (handleError code2 (handleError code1 s)).playCalls = (handleError code1 s).playCalls ∧
      (handleError code2 (handleError code1 s)).surfacedErrors
          = code2 :: (handleError code1 s).surfacedErrors ∧
      (∀ s2 : AudioSvcState, s2.crossOrigin ≠ some "anonymous" →
        handleError code2 s2 = { s2 with surfacedErrors := code2 :: s2.surfacedErrors }) := by
  have hrec : handleError code1 s
      = safePlay { s with crossOrigin := none, isCorsRestricted := true
                          loadEvents := s.loadEvents + 1 } := by
    rw [handleError, if_pos ⟨h1, h2⟩]
  have hsurf : ∀ (c : Nat) (s2 : AudioSvcState), s2.crossOrigin ≠ some "anonymous" →
      handleError c s2 = { s2 with surfacedErrors := c :: s2.surfacedErrors } := by
    intro c s2 hco
    rw [handleError, if_neg]
    intro hand
    exact hco hand.2
  have hafter : (handleError code1 s).crossOrigin = none := by
    rw [hrec]; rfl
  refine ⟨hafter, by rw [hrec]; rfl, by rw [hrec]; rfl, by rw [hrec]; rfl,
    by rw [hrec]; rfl, by rw [hrec]; rfl, ?_, ?_, hsurf code2⟩
  · rw [hsurf code2 _ (by rw [hafter]; simp)]
  · rw [hsurf code2 _ (by rw [hafter]; simp)]

theorem cors_fault_recovery_witness :
    (handleError 7 { svcState0 with src := "https://a.mp3" }).crossOrigin = none ∧
      (handleError 7 { svcState0 with src := "https://a.mp3" }).isCorsRestricted = true ∧
      (handleError 7 { svcState0 with src := "https://a.mp3" }).playCalls
          = ({ svcState0 with src := "https://a.mp3" } : AudioSvcState).playCalls + 1 ∧
      (handleError 8 (handleError 7 { svcState0 with src := "https://a.mp3" })).playCalls
          = (handleError 7 { svcState0 with src := "https://a.mp3" }).playCalls ∧
      (handleError 8 (handleError 7 { svcState0 with src := "https://a.mp3" })).surfacedErrors
          = 8 :: (handleError 7 { svcState0 with src := "https://a.mp3" }).surfacedErrors := by
  obtain ⟨a1, a2, -, -, a5, -, a7, a8, -⟩ :=
    cors_fault_recovery { svcState0 with src := "https://a.mp3" } (by decide) rfl 7 8
  exact ⟨a1, a2, a5, a7, a8⟩

/-! ### AudioService CORS-restriction flag lifetime (C8) -/

theorem init_preserves_cors (env : BrowserEnv) (s : AudioSvcState)
    (h : s.isCorsRestricted = true) : (init env s).isCorsRestricted = true := by
  rw [init]
  split <;> simp [h]

theorem playLoad_cors (url : String) (s : AudioSvcState) :
    (playLoad url s).isCorsRestricted = s.isCorsRestricted := by
  rw [playLoad]
  split <;> rfl

theorem playInitialSeek_cors (t : Option ℚ) (s : AudioSvcState) :
    (playInitialSeek t s).isCorsRestricted = s.isCorsRestricted := by
  cases t with
  | none => rfl
  | some t0 =>
      rw [playInitialSeek]
      split <;> rfl

theorem play_preserves_cors (env : BrowserEnv) (url : String) (t : Option ℚ)
    (s : AudioSvcState) (hset : s.isCorsRestricted = true)
    (h : url = "" ∨ jsStartsWith url "blob:" = true) :
    (play env url t s).isCorsRestricted = true := by
  rcases h with rfl | hblob
  · simpa [play] using hset
  · by_cases hurl : url = ""
    · simp [play, hurl, hset]
    · rw [play, if_neg hurl]
      simp only [safePlay]
      rw [playInitialSeek_cors, playLoad_cors]
      exact init_preserves_cors env _ (by simp [playCorsPolicy, hblob, hset])

theorem seekRun_preserves_cors (env : BrowserEnv) (t : JSNum) (s : AudioSvcState)
    (h : s.isCorsRestricted = true) : (seekRun env t s).isCorsRestricted = true := by
  cases t with
  | num q =>
      by_cases hr : s.readyState > 0
      · simp [seekRun, seek, hr, h]
      · cases he : env.seekBeforeMetadataThrows <;>
          simp [seekRun, seek, hr, he, setCurrentTimeBeforeMetadata, h]
  | nan => simpa [seekRun, seek] using h
  | posInf => simpa [seekRun, seek] using h
  | negInf => simpa [seekRun, seek] using h

/-- Claim C8 (amended): once the service's cross-origin-restriction flag is
set, every operation other than `play()` with a non-blob URL preserves it
(seek, skip, volume, toggle, init, frequency sampling, and the error handler
never clear it); `play()` given a non-empty non-blob URL, however, resets the
flag to `false` before reloading — the flag does not persist across such a
reload. -/
theorem cors_flag_persistence (env : BrowserEnv) (op : AudioOp) (s : AudioSvcState)
    (hset : s.isCorsRestricted = true)
    (hnp : ∀ url t, op = AudioOp.playOp url t → url = "" ∨ jsStartsWith url "blob:" = true) :
    (applyOp env op s).isCorsRestricted = true := by
  cases op with
  | playOp url t => exact play_preserves_cors env url t s hset (hnp url t rfl)
  | togglePlayOp =>
      by_cases hp : s.paused <;>
        simp [applyOp, togglePlay, hp, safePlay, init_preserves_cors env s hset, hset]
  | seekOp t => exact seekRun_preserves_cors env t s hset
  | skipOp secs => exact seekRun_preserves_cors env _ s hset
  | setVolumeOp v => simpa [applyOp, setVolume] using hset
  | initOp => exact init_preserves_cors env s hset
  | handleErrorOp c =>
      rw [applyOp, handleError]
      split <;> simp [safePlay, hset]
  | getFrequencyDataOp => simpa [applyOp] using hset

theorem cors_flag_persistence_witness :
    (applyOp env0 (AudioOp.setVolumeOp 2)
        { svcState0 with isCorsRestricted := true }).isCorsRestricted = true :=
  cors_flag_persistence env0 (AudioOp.setVolumeOp 2)
    { svcState0 with isCorsRestricted := true } rfl (fun _ _ h => nomatch h)

/-- Counterexample to C8 as stated: `play()` with a (non-blob) network URL
resets the restriction flag, so the flag does not persist for the remainder of
the engine's lifetime and is mutated outside the recovery protocol. -/
theorem cors_flag_reset_by_play :
    ({ svcState0 with isCorsRestricted := true } : AudioSvcState).isCorsRestricted = true ∧
      (applyOp env0 (AudioOp.playOp "https://song.mp3" none)
        { svcState0 with isCorsRestricted := true }).isCorsRestricted = false := by
  constructor
  · rfl
  · decide

/-! ### AudioFrameCodec: base64 round trip -/

theorem b64Index_b64Char : ∀ n < 64, b64Index (b64Char n) = n := by decide

theorem b64Char_ne_pad : ∀ n < 64, b64Char n ≠ '=' := by decide

theorem atob_btoa (bs : List Nat) (h : ∀ b ∈ bs, b < 256) : atob (btoa bs) = bs := by
  induction bs using btoa.induct with
  | case1 => rfl
  | case2 a =>
      have ha : a < 256 := h a (by simp)
      rw [btoa, atob]
      rw [if_pos rfl]
      rw [b64Index_b64Char _ (by omega), b64Index_b64Char _ (by omega)]
      refine congrArg₂ _ ?_ rfl
      omega
  | case3 a b =>
      have ha : a < 256 := h a (by simp)
      have hb : b < 256 := h b (by simp)
      rw [btoa, atob]
      rw [if_neg (b64Char_ne_pad _ (by omega))]
      rw [if_pos rfl]
      rw [b64Index_b64Char _ (by omega), b64Index_b64Char _ (by omega),
        b64Index_b64Char _ (by omega)]
      refine congrArg₂ _ ?_ (congrArg₂ _ ?_ rfl) <;> omega
  | case4 a b c rest ih =>
      have ha : a < 256 := h a (by simp)
      have hb : b < 256 := h b (by simp)
      have hc : c < 256 := h c (by simp)
      rw [btoa, atob]
      rw [if_neg (b64Char_ne_pad _ (by omega))]
      rw [if_neg (b64Char_ne_pad _ (by omega))]
      rw [b64Index_b64Char _ (by omega), b64Index_b64Char _ (by omega),
        b64Index_b64Char _ (by omega), b64Index_b64Char _ (by omega)]
      rw [ih (fun x hx => h x (by simp [hx]))]
      refine congrArg₂ _ ?_ (congrArg₂ _ ?_ (congrArg₂ _ ?_ rfl)) <;> omega

/-! ### AudioFrameCodec: 16-bit sample serialization -/

theorem wrap16_bounds (v : Int) : -32768 ≤ wrap16 v ∧ wrap16 v < 32768 := by
  dsimp only [wrap16]
  split <;> omega

theorem wrap16_of_range (v : Int) (h1 : -32768 ≤ v) (h2 : v < 32768) : wrap16 v = v := by
  dsimp only [wrap16]
  split <;> omega

theorem int16BytesLE_mem_lt (v : Int) : ∀ b ∈ int16BytesLE v, b < 256 := by
  dsimp only [int16BytesLE]
  intro b hb
  rcases List.mem_cons.1 hb with rfl | hb2
  · omega
  · rcases List.mem_cons.1 hb2 with rfl | hb3
    · omega
    · cases hb3

theorem bytesToInt16List_flatMap (vs : List Int) (h : ∀ v ∈ vs, -32768 ≤ v ∧ v < 32768) :
    bytesToInt16List (vs.flatMap int16BytesLE) = vs := by
  induction vs with
  | nil => rfl
  | cons v rest ih =>
      obtain ⟨h1, h2⟩ := h v (by simp)
      rw [List.flatMap_cons]
      dsimp only [int16BytesLE, List.cons_append, List.nil_append]
      rw [bytesToInt16List]
      rw [ih (fun x hx => h x (by simp [hx]))]
      refine congrArg₂ _ ?_ rfl
      dsimp only [bytesToInt16]
      split <;> omega

theorem map_range_getD (l : List Int) (d : Int) :
    (List.range l.length).map (fun i => l.getD i d) = l := by
  induction l with
  | nil => simp
  | cons a t ih =>
      rw [List.length_cons, List.range_succ_eq_map, List.map_cons, List.map_map]
      simp only [Function.comp_def, List.getD_cons_zero, List.getD_cons_succ]
      rw [ih]

theorem decodeAudioData_one (bytes : List Nat) :
    decodeAudioData bytes 1
      = [(bytesToInt16List bytes).map fun v => ((v : Int) : ℚ) / 32768] := by
  dsimp only [decodeAudioData]
  have hr1 : List.range 1 = [0] := rfl
  rw [Nat.div_one, hr1, List.map_cons, List.map_nil]
  refine congrArg₂ _ ?_ rfl
  have : (fun i => ((((bytesToInt16List bytes).getD (i * 1 + 0) 0 : Int) : ℚ) / 32768))
      = (fun v : Int => ((v : Int) : ℚ) / 32768) ∘ (fun i => (bytesToInt16List bytes).getD i 0) := by
    funext i
    simp
  rw [this, ← List.map_map, map_range_getD]

theorem createBlob_data_bytes (samples : List ℚ) :
    atob (createBlob samples).data
      = (samples.map fun x => jsToInt16 (x * 32768)).flatMap int16BytesLE := by
  dsimp only [createBlob]
  refine atob_btoa _ ?_
  intro b hb
  rcases List.mem_flatMap.1 hb with ⟨v, -, hbv⟩
  exact int16BytesLE_mem_lt v b hbv

theorem decode_encode (samples : List ℚ) :
    decodeInboundMono (createBlob samples)
      = samples.map fun x => ((jsToInt16 (x * 32768) : Int) : ℚ) / 32768 := by
  dsimp only [decodeInboundMono]
  rw [createBlob_data_bytes, decodeAudioData_one]
  rw [bytesToInt16List_flatMap]
  · rw [List.headD_cons, List.map_map]
    rfl
  · intro v hv
    rcases List.mem_map.1 hv with ⟨x, -, rfl⟩
    exact wrap16_bounds _

/-! ### Quantization arithmetic -/

theorem jsTrunc_sub_lt (q : ℚ) : |q - (jsTrunc q : ℚ)| < 1 := by
  rw [jsTrunc]
  split
  · have h1 := Int.le_ceil q
    have h2 := Int.ceil_lt_add_one q
    rw [abs_sub_lt_iff]
    constructor <;> linarith
  · have h1 := Int.floor_le q
    have h2 := Int.lt_floor_add_one q
    rw [abs_sub_lt_iff]
    constructor <;> linarith

theorem jsTrunc_range (q : ℚ) (h1 : -32768 ≤ q) (h2 : q < 32768) :
    -32768 ≤ jsTrunc q ∧ jsTrunc q < 32768 := by
  rw [jsTrunc]
  split
  · rename_i hq
    constructor
    · have hc := Int.le_ceil q
      have : ((-32768 : Int) : ℚ) ≤ (⌈q⌉ : ℚ) := by
        push_cast
        linarith
      exact_mod_cast this
    · have : ⌈q⌉ ≤ 0 := Int.ceil_le.2 (by exact_mod_cast le_of_lt hq)
      omega
  · rename_i hq
    constructor
    · have : (0 : Int) ≤ ⌊q⌋ := Int.floor_nonneg.2 (not_lt.1 hq)
      omega
    · exact Int.floor_lt.2 (by exact_mod_cast h2)

theorem sample_roundtrip (x : ℚ) (h1 : -1 ≤ x) (h2 : x < 1) :
    |((jsToInt16 (x * 32768) : Int) : ℚ) / 32768 - x| ≤ 1 / 32768 := by
  have hq1 : (-32768 : ℚ) ≤ x * 32768 := by linarith
  have hq2 : x * 32768 < 32768 := by linarith
  obtain ⟨hr1, hr2⟩ := jsTrunc_range _ hq1 hq2
  rw [jsToInt16, wrap16_of_range _ hr1 hr2]
  have hc := jsTrunc_sub_lt (x * 32768)
  rw [abs_sub_lt_iff] at hc
  obtain ⟨hc1, hc2⟩ := hc
  rw [abs_le]
  constructor <;> linarith

/-! ### Codec round trip (C2) -/

/-- Claim C2 (amended): encoding with `createBlob` and decoding with
`decode` + `decodeAudioData` at matching (mono) channel count reproduces every
sample within `1/32768`, for samples in `[-1, 1)`; the right endpoint `1`
itself is excluded, where the code's wrap-around quantization fails (see the
counterexample). -/
theorem codec_roundtrip (samples : List ℚ) (h : ∀ x ∈ samples, -1 ≤ x ∧ x < 1) :
    List.Forall₂ (fun y x => |y - x| ≤ 1 / 32768)
      (decodeInboundMono (createBlob samples)) samples := by
  rw [decode_encode, List.forall₂_map_left_iff]
  rw [List.forall₂_same]
  intro x hx
  exact sample_roundtrip x (h x hx).1 (h x hx).2

theorem codec_roundtrip_witness :
    List.Forall₂ (fun y x => |y - x| ≤ 1 / 32768)
      (decodeInboundMono (createBlob [0, 1/2, -1])) [0, 1/2, -1] := by
  refine codec_roundtrip [0, 1/2, -1] ?_
  intro x hx
  rcases List.mem_cons.1 hx with rfl | hx2
  · norm_num
  · rcases List.mem_cons.1 hx2 with rfl | hx3
    · norm_num
    · rcases List.mem_cons.1 hx3 with rfl | hx4
      · norm_num
      · cases hx4

/-- Counterexample to C2 as stated: the claim admits every sample in `[-1, 1]`,
but the sample `1` decodes to `-1` (wrap-around to the most negative 16-bit
value), an amplitude error of `2`, far beyond `1/32768`. -/
theorem codec_roundtrip_fails_at_one :
    decodeInboundMono (createBlob [1]) = [(-1 : ℚ)] ∧
      ¬ (|(-1 : ℚ) - 1| ≤ 1 / 32768) := by
  constructor
  · rw [decode_encode]
    have h1 : (1 : ℚ) * 32768 = 32768 := by norm_num
    have h2 : jsTrunc (32768 : ℚ) = 32768 := by
      rw [jsTrunc, if_neg (by norm_num)]
      norm_num
    have h3 : wrap16 32768 = -32768 := by decide
    rw [List.map_cons, List.map_nil, h1, jsToInt16, h2, h3]
    norm_num
  · norm_num

/-! ### Outbound quantization (C3) -/

/-- Claim C3 (amended): `createBlob` quantizes each sample by storing
`sample * 32768` into a 16-bit slot, i.e. truncation toward zero followed by
wrap-around reduction into the signed 16-bit range — not `round(sample*32767)`
with clamping; the stored values (always in `[-32768, 32767]`) are serialized
little-endian, wrapped in base64, and the packet is tagged with the fixed
outbound identifier `"audio/pcm;rate=16000"`. -/
theorem outbound_quantization (samples : List ℚ) :
    (createBlob samples).mimeType = "audio/pcm;rate=16000" ∧
      atob (createBlob samples).data
        = (samples.map fun x => wrap16 (jsTrunc (x * 32768))).flatMap int16BytesLE ∧
      ∀ x ∈ samples, -32768 ≤ jsToInt16 (x * 32768) ∧ jsToInt16 (x * 32768) < 32768 := by
  refine ⟨rfl, createBlob_data_bytes samples, ?_⟩
  intro x _
  exact wrap16_bounds _

theorem outbound_quantization_witness :
    (createBlob [0]).mimeType = "audio/pcm;rate=16000" ∧
      atob (createBlob [0]).data
        = (([0] : List ℚ).map fun x => wrap16 (jsTrunc (x * 32768))).flatMap int16BytesLE ∧
      ∀ x ∈ ([0] : List ℚ), -32768 ≤ jsToInt16 (x * 32768) ∧ jsToInt16 (x * 32768) < 32768 :=
  outbound_quantization [0]

/-- Counterexample to C3 as stated: at the admissible sample `1`, the code
stores `-32768` (truncate-and-wrap at scale `32768`) where the claimed
quantizer `round(sample * 32767)` clamped would give `32767`. -/
theorem outbound_quantization_fails_at_one :
    jsToInt16 ((1 : ℚ) * 32768) = -32768 ∧
      specClaimQuantize 1 = 32767 ∧
      ((-32768 : Int) ≠ 32767) ∧
      atob (createBlob [1]).data = [0, 128] := by
  have h1 : (1 : ℚ) * 32768 = 32768 := by norm_num
  have h2 : jsTrunc (32768 : ℚ) = 32768 := by
    rw [jsTrunc, if_neg (by norm_num)]
    norm_num
  have h3 : wrap16 32768 = -32768 := by decide
  have hq : jsToInt16 ((1 : ℚ) * 32768) = -32768 := by
    rw [h1, jsToInt16, h2, h3]
  refine ⟨hq, ?_, by decide, ?_⟩
  · rw [specClaimQuantize]
    norm_num [round_eq]
  · rw [createBlob_data_bytes, List.map_cons, List.map_nil, List.flatMap_cons, hq]
    decide

end VSFM
